import Mathlib

/-!
Verification of the external plugin bridge of the telegraf fork.

The Go sources under the external package (converter.go, setup.go, input.go,
input_client.go) and the input wrapper package are shallowly embedded below.
Go strings handled byte-wise by the code are modelled as their character
sequences (all inputs relevant to the statements are ASCII, where Go byte
slicing and character slicing agree).  A Go function that can return an
error or abort with a runtime panic is modelled with the `GoResult` type.
-/

namespace Telegraf

/-- Go strings, modelled as character sequences. -/
abbrev GoStr := List Char

/-- Embed a Lean string literal as a Go string. -/
def gs (s : String) : GoStr := s.data

/-- Outcome of a Go call: a value, a returned error, or a runtime panic. -/
inductive GoResult (α : Type) where
  | ok (val : α)
  | err
  | panicked
deriving DecidableEq

/-- Sequencing of Go calls whose errors and panics propagate to the caller. -/
def GoResult.bind {α β : Type} : GoResult α → (α → GoResult β) → GoResult β
  | .ok a, f => f a
  | .err, _ => .err
  | .panicked, _ => .panicked

/-- Insertion into a Go map.  The map is modelled as an association list in
insertion order; inserting an existing key overwrites its value in place.
(Go map iteration order is unspecified at runtime; insertion order is the
deterministic model used throughout this development.) -/
def mapInsert {α β : Type} [DecidableEq α] (m : List (α × β)) (k : α) (v : β) :
    List (α × β) :=
  if m.any (fun p => decide (p.1 = k)) then
    m.map (fun p => if p.1 = k then (k, v) else p)
  else m ++ [(k, v)]

/-- Split a character sequence at its first space, returning the parts before
and after it, or none when it contains no space. -/
def breakAtSpace : GoStr → Option (GoStr × GoStr)
  | [] => none
  | c :: rest =>
    if c = ' ' then some ([], rest)
    else
      match breakAtSpace rest with
      | none => none
      | some (before, after) => some (c :: before, after)

/-- Go strings.SplitN(s, " ", 2): the part before the first space and the
rest, or the whole string as a single field when it has no space. -/
def splitN2 (s : GoStr) : List GoStr :=
  match breakAtSpace s with
  | none => [s]
  | some (a, b) => [a, b]

/-- The possible states of the checksum manifest file handed to
readChecksums: absent (os.Open fails with fs.ErrNotExist), unreadable
(os.Open fails with any other error), or present with the given lines. -/
inductive ManifestInput where
  | absent
  | unreadable
  | contents (lines : List GoStr)

/-- The line loop of readChecksums (setup.go).  For each line,
strings.SplitN(line, " ", 2) must yield exactly two fields, otherwise the
whole manifest is rejected.  The code then evaluates fields[1][1:] to strip
the sha256sum text/binary mode character; when fields[1] is the empty
string this slice is out of range and the Go runtime panics. -/
def readChecksumsLoop : List GoStr → List (GoStr × GoStr) →
    GoResult (List (GoStr × GoStr))
  | [], acc => .ok acc
  | line :: rest, acc =>
    match splitN2 line with
    | [chk, fname] =>
      if fname = [] then .panicked
      else readChecksumsLoop rest (mapInsert acc (fname.drop 1) chk)
    | _ => .err

/-- readChecksums (setup.go): an absent file yields a nil map and no error;
any other open failure is an error; otherwise the lines are parsed by
`readChecksumsLoop` starting from the empty map. -/
def readChecksums : ManifestInput → GoResult (List (GoStr × GoStr))
  | .absent => .ok []
  | .unreadable => .err
  | .contents ls => readChecksumsLoop ls []

/-- The parse of one manifest line, when it succeeds without error or panic:
the stripped filename key paired with the checksum field. -/
def lineEntry (line : GoStr) : Option (GoStr × GoStr) :=
  match splitN2 line with
  | [chk, fname] => if fname = [] then none else some (fname.drop 1, chk)
  | _ => none

/-- A manifest line that readChecksums rejects as a parse error: its
first-space split does not have exactly two fields. -/
def lineFieldsBad (line : GoStr) : Bool :=
  decide ((splitN2 line).length ≠ 2)

/-- A manifest line on which readChecksums panics: two split fields whose
second is empty, so fields[1][1:] slices out of range. -/
def linePanics (line : GoStr) : Bool :=
  match splitN2 line with
  | [_, fname] => fname.isEmpty
  | _ => false

/-- The mode bits of a file as seen by the Discover walk (setup.go): whether
the ModeSymlink type bit is set, whether any other ModeType bit is set
(directory, device, pipe, socket, irregular), and whether any of the 0111
execute permission bits is set. -/
structure GoFileMode where
  symlink : Bool
  otherType : Bool
  exec : Bool
deriving DecidableEq

/-- Mode()&fs.ModeType == 0 && Mode()&0111 != 0: a regular file with at
least one execute bit. -/
def regularExecutable (m : GoFileMode) : Bool :=
  (!m.symlink && !m.otherType) && m.exec

/-- isFileRegularAndExecutable (setup.go).  For a symlink the code calls
os.Stat to resolve the target; `resolved` is the outcome of that call
(none models a stat failure on a broken link, which is logged and treated
as not collectable).  For a non-symlink the resolved value is unused. -/
def isFileRegularAndExecutable (info : GoFileMode) (resolved : Option GoFileMode) :
    Bool :=
  if info.symlink then
    match resolved with
    | none => false
    | some fi => regularExecutable fi
  else regularExecutable info

/-- One invocation of the filepath.Walk callback in Discover (setup.go).
entry: lstat succeeded, the callback receives the FileInfo and a nil error.
lstatFailure: lstat on the entry failed, so filepath.Walk invokes the
callback with a nil FileInfo and the error; the callback ignores the error
argument and calls info.Mode() on the nil interface, a runtime panic.
readDirFailure: reading a directory failed, so filepath.Walk invokes the
callback a second time for that directory with its FileInfo and the error;
the callback again ignores the error and returns nil, so the error is
swallowed, the directory contents are skipped, and the walk continues. -/
inductive WalkEvent where
  | entry (base : GoStr) (info : GoFileMode) (resolved : Option GoFileMode)
  | lstatFailure (base : GoStr)
  | readDirFailure (base : GoStr) (info : GoFileMode) (resolved : Option GoFileMode)

/-- The filepath.Walk loop of Discover over the sequence of callback
invocations for one category directory.  The callback collects the base
name of every regular executable entry and always returns nil, so the walk
itself never returns an error: the error check after filepath.Walk in
Discover is unreachable. -/
def walkCategory : List WalkEvent → List GoStr → GoResult (List GoStr)
  | [], acc => .ok acc
  | .entry b info res :: rest, acc =>
    walkCategory rest (if isFileRegularAndExecutable info res then acc ++ [b] else acc)
  | .lstatFailure _ :: _, _ => .panicked
  | .readDirFailure b info res :: rest, acc =>
    walkCategory rest (if isFileRegularAndExecutable info res then acc ++ [b] else acc)

/-- Outcome of os.Stat on a category sub-directory in Discover. -/
inductive StatResult where
  | notExist
  | failure
  | found (isDir : Bool)

/-- The filesystem content relevant to one category sub-directory: its stat
outcome, the state of its checksums manifest file, and the walk callback
sequence for it. -/
structure CategoryFS where
  stat : StatResult
  manifest : ManifestInput
  walk : List WalkEvent

/-- The root directory handed to Discover, by fixed category. -/
structure RootFS where
  inputs : CategoryFS
  outputs : CategoryFS
  processors : CategoryFS
  aggregators : CategoryFS

/-- The two maps built by Discover: category name to discovered executable
base names, and category name to its parsed checksum manifest. -/
structure Registration where
  register : List (GoStr × List GoStr)
  checksums : List (GoStr × List (GoStr × GoStr))
deriving DecidableEq

/-- The body of the category loop of Discover (setup.go).  The register
entry is created before the stat; a missing or non-directory category is
skipped with the empty list; a stat failure other than fs.ErrNotExist is an
error; otherwise the manifest is parsed (its error aborts Discover) and the
directory is walked. -/
def discoverStep (name : GoStr) (c : CategoryFS) (st : Registration) :
    GoResult Registration :=
  let reg := mapInsert st.register name []
  match c.stat with
  | .notExist => .ok { st with register := reg }
  | .failure => .err
  | .found false => .ok { st with register := reg }
  | .found true =>
    (readChecksums c.manifest).bind fun cs =>
      (walkCategory c.walk []).bind fun files =>
        .ok { register := mapInsert reg name files,
              checksums := mapInsert st.checksums name cs }

/-- Discover (setup.go): fold the category loop over the four fixed
categories in source order. -/
def Discover (fs : RootFS) : GoResult Registration :=
  (discoverStep (gs "inputs") fs.inputs { register := [], checksums := [] }).bind fun s1 =>
    (discoverStep (gs "outputs") fs.outputs s1).bind fun s2 =>
      (discoverStep (gs "processors") fs.processors s2).bind fun s3 =>
        discoverStep (gs "aggregators") fs.aggregators s3

/-- A telegraf field value (converter.go holds these as interface values).
The five supported kinds are modelled by their widened representatives:
the Go switch in ToMetricMessage admits the narrower numeric types
(int8..int32, uint8..uint32, float32) and widens them losslessly through
internal.ToInt64 / ToUint64 / ToFloat64 before encoding, so a value of a
narrower type is represented here by its widened value.  Float values are
represented by their 64-bit IEEE-754 pattern: the codec copies them
verbatim and performs no floating-point arithmetic.  `unsupported` stands
for any value outside the five families (for example time.Time or nil). -/
inductive FieldValue where
  | i64 (v : Int)
  | u64 (v : Nat)
  | f64 (bits : Nat)
  | str (s : String)
  | boolean (b : Bool)
  | unsupported
deriving DecidableEq

/-- True for the five supported field value kinds. -/
def supportedKind : FieldValue → Bool
  | .unsupported => false
  | _ => true

/-- The telegraf metric value types. -/
inductive MetricType where
  | untyped
  | counter
  | gauge
  | summary
  | histogram
deriving DecidableEq

/-- A telegraf metric as the converter observes it: Name(), TagList() in
order, FieldList() in order, Time().UnixNano(), and Type(). -/
structure Metric where
  name : String
  tags : List (String × String)
  fields : List (String × FieldValue)
  time : Int
  mtype : MetricType
deriving DecidableEq

/-- Modelled from the spec: the wire discriminant enum protocol.FieldType of
the generated protobuf code, which is not under src.  Its zero value
`unset` (the value an encoded field keeps when the encoding switch matches
no case) is distinct from the five discriminants: per the spec the decoder
recognizes exactly the five kinds and an unrecognized discriminant yields
an absent value. -/
inductive FieldType where
  | unset
  | i64
  | u64
  | f64
  | str
  | boolean
deriving DecidableEq

/-- The protobuf oneof carrying a wire field value; `vnone` is the unset
oneof (Go nil), and each getter returns the protobuf zero value when the
oneof holds a different member. -/
inductive WireFieldValue where
  | vnone
  | vi64 (v : Int)
  | vu64 (v : Nat)
  | vf64 (bits : Nat)
  | vstr (s : String)
  | vbool (b : Bool)
deriving DecidableEq

/-- GetValueI64 of the generated oneof. -/
def WireFieldValue.getI64 : WireFieldValue → Int
  | .vi64 v => v
  | _ => 0

/-- GetValueU64 of the generated oneof. -/
def WireFieldValue.getU64 : WireFieldValue → Nat
  | .vu64 v => v
  | _ => 0

/-- GetValueF64 of the generated oneof (bit pattern, zero when unset). -/
def WireFieldValue.getF64 : WireFieldValue → Nat
  | .vf64 v => v
  | _ => 0

/-- GetValueString of the generated oneof. -/
def WireFieldValue.getStr : WireFieldValue → String
  | .vstr s => s
  | _ => ""

/-- GetValueBool of the generated oneof. -/
def WireFieldValue.getBool : WireFieldValue → Bool
  | .vbool b => b
  | _ => false

/-- A protocol.Field wire message (Key, Type, Value). -/
structure WireField where
  key : String
  ftype : FieldType
  value : WireFieldValue
deriving DecidableEq

/-- Modelled from the spec: the wire metric kind enum protocol.ValueType of
the generated protobuf code, which is not under src.  `unset` is its zero
value; decoding defaults it to untyped per the spec. -/
inductive WireValueType where
  | unset
  | counter
  | gauge
  | summary
  | histogram
deriving DecidableEq

/-- A protocol.Metric wire message (Name, Tags, Fields, Time, Type). -/
structure WireMetric where
  name : String
  tags : List (String × String)
  fields : List WireField
  time : Int
  wtype : WireValueType
deriving DecidableEq

/-- The per-field body of the encoding loop in ToMetricMessage
(converter.go).  The Go type switch has no default case, so for an
unsupported value the field keeps the zero discriminant and a nil value,
and is still appended to the outgoing message. -/
def encodeField (key : String) (v : FieldValue) : WireField :=
  match v with
  | .i64 n => { key := key, ftype := .i64, value := .vi64 n }
  | .u64 n => { key := key, ftype := .u64, value := .vu64 n }
  | .f64 b => { key := key, ftype := .f64, value := .vf64 b }
  | .str s => { key := key, ftype := .str, value := .vstr s }
  | .boolean b => { key := key, ftype := .boolean, value := .vbool b }
  | .unsupported => { key := key, ftype := .unset, value := .vnone }

/-- The metric kind switch of ToMetricMessage: the four named kinds map
across, anything else (untyped) leaves the zero value. -/
def encodeType : MetricType → WireValueType
  | .counter => .counter
  | .gauge => .gauge
  | .summary => .summary
  | .histogram => .histogram
  | .untyped => .unset

/-- ToMetricMessage (converter.go).  Tags are copied pairwise in order;
fields are encoded in order by `encodeField`; the timestamp is the
nanosecond epoch value.  The internal.ToInt64 / ToUint64 / ToFloat64 error
branches are unreachable for the values admitted by their switch cases, so
the conversion is total. -/
def ToMetricMessage (m : Metric) : WireMetric :=
  { name := m.name
    tags := m.tags
    fields := m.fields.map (fun f => encodeField f.1 f.2)
    time := m.time
    wtype := encodeType m.mtype }

/-- The per-field body of the decoding loop in FromMetricMessage: the
switch on GetType() recognizes exactly the five discriminants and reads
the matching oneof slot; otherwise the interface value stays nil (none). -/
def decodeFieldValue (f : WireField) : Option FieldValue :=
  match f.ftype with
  | .i64 => some (.i64 f.value.getI64)
  | .u64 => some (.u64 f.value.getU64)
  | .f64 => some (.f64 f.value.getF64)
  | .str => some (.str f.value.getStr)
  | .boolean => some (.boolean f.value.getBool)
  | .unset => none

/-- The metric kind switch of FromMetricMessage: the four named kinds map
across, anything else defaults to untyped. -/
def decodeType : WireValueType → MetricType
  | .counter => .counter
  | .gauge => .gauge
  | .summary => .summary
  | .histogram => .histogram
  | .unset => .untyped

/-- Modelled from the spec: the metric constructor metric.New of the
repository metric package, which is not under src.  Per spec section 4.5
decoding reconstructs the tags and fields of the message preserving their
order, and an unrecognized discriminant yields an absent value, so a field
whose decoded value is absent (none) does not appear on the reconstructed
metric.  The timestamp is taken as nanoseconds since the epoch. -/
def metricNew (name : String) (tags : List (String × String))
    (fields : List (String × Option FieldValue)) (time : Int)
    (mtype : MetricType) : Metric :=
  { name := name
    tags := tags
    fields := fields.filterMap (fun f => f.2.map (fun v => (f.1, v)))
    time := time
    mtype := mtype }

/-- FromMetricMessage (converter.go): tags and fields are folded into Go
maps (modelled in insertion order, see `mapInsert`), every wire field
contributing an entry (a nil interface value for an unrecognized
discriminant), and the metric is built by metric.New. -/
def FromMetricMessage (w : WireMetric) : Metric :=
  let tags := w.tags.foldl (fun acc t => mapInsert acc t.1 t.2) []
  let fields := w.fields.foldl (fun acc f => mapInsert acc f.key (decodeFieldValue f)) []
  metricNew w.name tags fields w.time (decodeType w.wtype)

/-- FromMetricsMessage (converter.go): element-wise decoding in order. -/
def FromMetricsMessage (ws : List WireMetric) : List Metric :=
  ws.map FromMetricMessage

/-- A protocol.Error wire message: the explicit domain error channel. -/
structure ProtoError where
  isError : Bool
  message : String
deriving DecidableEq

/-- FromErrorMessage (converter.go): nil unless the IsError flag is set. -/
def FromErrorMessage (e : ProtoError) : Option String :=
  if e.isError then some e.message else none

/-- ToErrorMessage (converter.go). -/
def ToErrorMessage : Option String → ProtoError
  | none => { isError := false, message := "" }
  | some m => { isError := true, message := m }

/-- The outcome of one gRPC call as the stub observes it: a transport-level
failure carrying the gRPC error text, or the decoded response message. -/
inductive GrpcReply (α : Type) where
  | failure (msg : String)
  | reply (resp : α)

/-- A protocol.GatherResponse wire message.  An absent Error sub-message is
modelled by the IsError flag being false, matching the Go nil-receiver
getters. -/
structure GatherResponse where
  error : ProtoError
  metrics : List WireMetric

/-- How a Go method call terminates: with a runtime panic, or by returning
a value. -/
inductive CallResult (α : Type) where
  | panicked (msg : String)
  | value (a : α)
deriving DecidableEq

/-- externalInputClient.Description (input.go): a transport failure makes
the host panic; otherwise the response text is returned. -/
def clientDescription (r : GrpcReply String) : CallResult String :=
  match r with
  | .failure e => .panicked ("gRPC call failed: " ++ e)
  | .reply d => .value d

/-- externalInputClient.SampleConfig (input.go, input_client.go): a
transport failure makes the host panic; otherwise the response text is
returned. -/
def clientSampleConfig (r : GrpcReply String) : CallResult String :=
  match r with
  | .failure e => .panicked ("gRPC call failed: " ++ e)
  | .reply c => .value c

/-- externalInputClient.Configure (input.go): a transport failure is
returned as a wrapped error value; otherwise the domain error of the
response is decoded. -/
def clientConfigure (r : GrpcReply ProtoError) : Option String :=
  match r with
  | .failure e => some ("gRPC call failed: " ++ e)
  | .reply resp => FromErrorMessage resp

/-- externalInputClient.Init (input.go): a transport failure is returned as
a wrapped error value; otherwise the domain error of the response is
decoded. -/
def clientInit (r : GrpcReply ProtoError) : Option String :=
  match r with
  | .failure e => some ("gRPC call failed: " ++ e)
  | .reply resp => FromErrorMessage resp

/-- externalInputClient.Gather (input.go): a transport failure is returned
as a wrapped error; a set domain error flag is returned as an error with
nil metrics; otherwise the wire metrics are decoded in order. -/
def clientGather (r : GrpcReply GatherResponse) : Except String (List Metric) :=
  match r with
  | .failure e => .error ("gRPC call failed: " ++ e)
  | .reply resp =>
    match FromErrorMessage resp.error with
    | some e => .error e
    | none => .ok (FromMetricsMessage resp.metrics)

/-- The behavior of the remote plugin process as seen through the gRPC
stub: what each of the three stateful calls of the claims returns. -/
structure RemotePlugin where
  configure : String → GrpcReply ProtoError
  init : GrpcReply ProtoError
  gather : GrpcReply GatherResponse

/-- Wrapper.Init (input package, wrapper source): Configure with the stored
raw configuration text first; its error is wrapped and returned without
calling the remote Init; otherwise the result is that of the remote Init.
The Bool records whether the remote Init call was issued. -/
def wrapperInit (p : RemotePlugin) (config : String) : Option String × Bool :=
  match clientConfigure (p.configure config) with
  | some e => (some ("configuration failed: " ++ e), false)
  | none => (clientInit p.init, true)

/-- Wrapper.Gather (input package, wrapper source): on a Gather error
nothing is forwarded and the error is returned; on success every returned
metric is added to the accumulator in order and nil is returned. -/
def wrapperGather (p : RemotePlugin) (sink : List Metric) :
    List Metric × Option String :=
  match clientGather p.gather with
  | .error e => (sink, some e)
  | .ok ms => (sink ++ ms, none)

/-- One hex digit of encoding/hex, upper or lower case. -/
def hexDigit (c : Char) : Option Nat :=
  if '0' ≤ c ∧ c ≤ '9' then some (c.toNat - '0'.toNat)
  else if 'a' ≤ c ∧ c ≤ 'f' then some (c.toNat - 'a'.toNat + 10)
  else if 'A' ≤ c ∧ c ≤ 'F' then some (c.toNat - 'A'.toNat + 10)
  else none

/-- hex.DecodeString: pairs of hex digits to bytes; an odd length or a
non-digit character is a decode error (none). -/
def hexDecode : GoStr → Option (List Nat)
  | [] => some []
  | [_] => none
  | a :: b :: rest =>
    match hexDigit a, hexDigit b, hexDecode rest with
    | some x, some y, some bytes => some ((16 * x + y) :: bytes)
    | _, _, _ => none

/-- The go-plugin SecureConfig built by SetupReceiver: the expected raw
digest and the fact that the configured hash algorithm is SHA-256
(Hash: sha256.New() in the source). -/
structure SecureConfig where
  checksum : List Nat
  hashIsSha256 : Bool
deriving DecidableEq

/-- The fields of the go-plugin ClientConfig built by SetupReceiver
(setup.go) that the claims are about; the fixed fields (Cmd, Managed,
AutoMTLS, Logger, Stderr, AllowedProtocols, HandshakeConfig) do not vary
and are represented by the one-second start timeout that bounds bring-up. -/
structure ClientConfig where
  secureConfig : Option SecureConfig
  startTimeoutSeconds : Nat
deriving DecidableEq

/-- SetupReceiver (setup.go): an empty checksum leaves secure verification
off; a non-empty checksum must be valid hex, else the call fails before a
client is built; a valid checksum becomes a SecureConfig with SHA-256. -/
def SetupReceiver (checksum : GoStr) : Except String ClientConfig :=
  if checksum = [] then
    .ok { secureConfig := none, startTimeoutSeconds := 1 }
  else
    match hexDecode checksum with
    | none => .error "decoding checksum failed"
    | some raw =>
      .ok { secureConfig := some { checksum := raw, hashIsSha256 := true },
            startTimeoutSeconds := 1 }

/-- The distinguishable launch failures of the secure launcher. -/
inductive LaunchError where
  | checksumMismatch
  | other
deriving DecidableEq

/-- Observable result of one launch attempt: the outcome (none means a
connected client), how many RPC calls reached the spawned process, and
whether a subprocess is left running. -/
structure LaunchState where
  outcome : Option LaunchError
  rpcCallsMade : Nat
  subprocessRunning : Bool
deriving DecidableEq

/-- Modelled from the spec: the go-plugin client bring-up (a dependency,
not under src) driven by the ClientConfig that SetupReceiver builds.  Per
spec section 4.3, when a SecureConfig is present the launcher hashes the
target executable and refuses to start or trust the connection on a digest
mismatch, as part of bring-up; a failed launch makes no RPC call and
leaves no subprocess running.  The hash function and the bring-up
continuation for the non-mismatch paths are parameters, since only the
mismatch path is being settled. -/
def clientStart (hash : List Nat → List Nat) (exe : List Nat)
    (cfg : ClientConfig) (onward : LaunchState) : LaunchState :=
  match cfg.secureConfig with
  | some sc =>
    if hash exe = sc.checksum then onward
    else { outcome := some .checksumMismatch, rpcCallsMade := 0,
           subprocessRunning := false }
  | none => onward

/-- Scenario B of the spec: a counter metric named cpu with tag host=a,
int64 field value=42, timestamp epoch 0. -/
def scenarioB : Metric :=
  { name := "cpu"
    tags := [("host", "a")]
    fields := [("value", .i64 42)]
    time := 0
    mtype := .counter }

/-- A metric with a single field whose value is outside the five supported
kinds. -/
def unsupportedFieldMetric : Metric :=
  { name := "m"
    tags := []
    fields := [("k", .unsupported)]
    time := 0
    mtype := .untyped }

/-- A metric with one supported and one unsupported field. -/
def mixedMetric : Metric :=
  { name := "m"
    tags := []
    fields := [("a", .i64 1), ("b", .unsupported)]
    time := 0
    mtype := .untyped }

/-- The mode of a directory entry during the walk: a non-regular type bit
is set. -/
def dirMode : GoFileMode := { symlink := false, otherType := true, exec := true }

/-- The mode of a regular executable file. -/
def exeMode : GoFileMode := { symlink := false, otherType := false, exec := true }

/-- A category sub-directory that does not exist. -/
def emptyCat : CategoryFS := { stat := .notExist, manifest := .absent, walk := [] }

/-- Scenario A of the spec with a single separator space before the
binary-mode star: a root whose inputs directory holds the executable
myplugin and a manifest associating it with the checksum. -/
def scenarioAFS : RootFS :=
  { inputs :=
      { stat := .found true
        manifest := .contents [gs "abcdef0123... *myplugin"]
        walk := [ .entry (gs "inputs") dirMode none,
                  .entry (gs "myplugin") exeMode none ] }
    outputs := emptyCat
    processors := emptyCat
    aggregators := emptyCat }

/-- A root whose inputs directory contains a sub-directory that cannot be
read: the walk first visits it, then reports the readDirNames failure. -/
def unreadableSubdirFS : RootFS :=
  { inputs :=
      { stat := .found true
        manifest := .absent
        walk := [ .entry (gs "inputs") dirMode none,
                  .entry (gs "locked") dirMode none,
                  .readDirFailure (gs "locked") dirMode none ] }
    outputs := emptyCat
    processors := emptyCat
    aggregators := emptyCat }

/-- A remote plugin whose Configure reports a domain error. -/
def configureFailPlugin : RemotePlugin :=
  { configure := fun _ => .reply { isError := true, message := "bad" }
    init := .reply { isError := false, message := "" }
    gather := .reply { error := { isError := false, message := "" }, metrics := [] } }

/-- A remote plugin whose Configure succeeds and whose Init reports a
domain error. -/
def configureOkPlugin : RemotePlugin :=
  { configure := fun _ => .reply { isError := false, message := "" }
    init := .reply { isError := true, message := "nope" }
    gather := .reply { error := { isError := false, message := "" }, metrics := [] } }

/-- A remote plugin whose Gather reports a domain error. -/
def gatherErrPlugin : RemotePlugin :=
  { configure := fun _ => .reply { isError := false, message := "" }
    init := .reply { isError := false, message := "" }
    gather := .reply { error := { isError := true, message := "boom" }, metrics := [] } }

/-- A remote plugin whose Gather succeeds with one wire metric. -/
def gatherOkPlugin : RemotePlugin :=
  { configure := fun _ => .reply { isError := false, message := "" }
    init := .reply { isError := false, message := "" }
    gather := .reply { error := { isError := false, message := "" },
                       metrics := [ToMetricMessage scenarioB] } }

/-- Inserting a fresh key into a Go map appends the pair. -/
theorem mapInsert_fresh {α β : Type} [DecidableEq α] (acc : List (α × β)) (k : α)
    (v : β) (h : k ∉ acc.map Prod.fst) : mapInsert acc k v = acc ++ [(k, v)] := by
  unfold mapInsert
  rw [if_neg]
  simp only [List.any_eq_true, decide_eq_true_eq, not_exists]
  intro p hc
  rcases hc with ⟨hp, hpk⟩
  exact h (hpk ▸ List.mem_map_of_mem Prod.fst hp)

/-- Folding pairwise map insertion over pairwise distinct keys appends the
pairs in order. -/
theorem foldl_mapInsert_pairs {α β : Type} [DecidableEq α] :
    ∀ (l : List (α × β)) (acc : List (α × β)),
    (acc.map Prod.fst ++ l.map Prod.fst).Nodup →
    l.foldl (fun a t => mapInsert a t.1 t.2) acc = acc ++ l := by
  intro l
  induction l with
  | nil => intro acc _; simp
  | cons p t ih =>
    intro acc h
    have hfresh : p.1 ∉ acc.map Prod.fst := by
      rcases List.nodup_append.mp h with ⟨_, _, hdis⟩
      intro hmem
      exact hdis hmem (by simp)
    simp only [List.foldl_cons]
    rw [mapInsert_fresh _ _ _ hfresh]
    have h2 : ((acc ++ [(p.1, p.2)]).map Prod.fst ++ t.map Prod.fst).Nodup := by
      rw [List.map_append, List.append_assoc]
      simpa using h
    rw [ih (acc ++ [(p.1, p.2)]) h2]
    simp

/-- The encoded wire field keeps the host field key. -/
theorem encodeField_key (k : String) (v : FieldValue) : (encodeField k v).key = k := by
  cases v <;> rfl

/-- Decoding the encoding of a supported-kind field value recovers it. -/
theorem decodeFieldValue_encodeField (k : String) (v : FieldValue)
    (h : supportedKind v = true) :
    decodeFieldValue (encodeField k v) = some v := by
  cases v <;> simp_all [encodeField, decodeFieldValue, supportedKind,
    WireFieldValue.getI64, WireFieldValue.getU64, WireFieldValue.getF64,
    WireFieldValue.getStr, WireFieldValue.getBool]

/-- Folding the decode of encoded supported-kind fields over pairwise
distinct keys appends the decoded pairs in order. -/
theorem foldl_mapInsert_fields :
    ∀ (l : List (String × FieldValue)) (acc : List (String × Option FieldValue)),
    (∀ kv ∈ l, supportedKind kv.2 = true) →
    (acc.map Prod.fst ++ l.map Prod.fst).Nodup →
    (l.map (fun f => encodeField f.1 f.2)).foldl
        (fun a f => mapInsert a f.key (decodeFieldValue f)) acc
      = acc ++ l.map (fun kv => (kv.1, some kv.2)) := by
  intro l
  induction l with
  | nil => intro acc _ _; simp
  | cons p t ih =>
    intro acc hsupp h
    have hfresh : p.1 ∉ acc.map Prod.fst := by
      rcases List.nodup_append.mp h with ⟨_, _, hdis⟩
      intro hmem
      exact hdis hmem (by simp)
    have hsp : supportedKind p.2 = true := hsupp p (by simp)
    simp only [List.map_cons, List.foldl_cons, encodeField_key,
      decodeFieldValue_encodeField p.1 p.2 hsp]
    rw [mapInsert_fresh _ _ _ hfresh]
    have h2 : ((acc ++ [(p.1, some p.2)]).map Prod.fst ++ t.map Prod.fst).Nodup := by
      rw [List.map_append, List.append_assoc]
      simpa using h
    rw [ih (acc ++ [(p.1, some p.2)]) (fun kv hkv => hsupp kv (by simp [hkv])) h2]
    simp

/-- Rebuilding pairs from all-some decoded values is the identity. -/
theorem filterMap_some_pairs (l : List (String × FieldValue)) :
    (l.map (fun kv => (kv.1, some kv.2))).filterMap
        (fun f => f.2.map (fun v => (f.1, v))) = l := by
  induction l with
  | nil => rfl
  | cons p t ih => simp [List.filterMap_cons, ih]

/-- The metric kind survives the encode and decode switches. -/
theorem decodeType_encodeType (t : MetricType) : decodeType (encodeType t) = t := by
  cases t <;> rfl

/-- C1: for every metric whose field values are each one of the five
supported kinds, decoding the encoding yields a metric with the same name,
the same tag pairs in order, the same field pairs in order, the same
nanosecond timestamp and the same kind.  The pairwise distinctness of tag
keys and of field keys is an invariant of telegraf metrics (tags and
fields are map-backed on construction).  The decode side goes through Go
maps and metric.New; map iteration is modelled in insertion order and
metric.New is modelled from the spec (see `metricNew`). -/
theorem metric_roundtrip (m : Metric)
    (htags : (m.tags.map Prod.fst).Nodup)
    (hfields : (m.fields.map Prod.fst).Nodup)
    (hsupp : ∀ kv ∈ m.fields, supportedKind kv.2 = true) :
    FromMetricMessage (ToMetricMessage m) = m := by
  unfold FromMetricMessage ToMetricMessage metricNew
  simp only []
  have htags2 : (([] : List (String × String)).map Prod.fst ++ m.tags.map Prod.fst).Nodup := by
    simpa using htags
  have hfields2 : (([] : List (String × Option FieldValue)).map Prod.fst
      ++ m.fields.map Prod.fst).Nodup := by
    simpa using hfields
  rw [foldl_mapInsert_pairs m.tags [] htags2,
    foldl_mapInsert_fields m.fields [] hsupp hfields2]
  simp only [List.nil_append]
  rw [filterMap_some_pairs, decodeType_encodeType]

/-- C1 witness: scenario B of the spec, a counter metric cpu with tag
host=a, int64 field value=42 at epoch 0, survives the round trip. -/
theorem metric_roundtrip_witness :
    FromMetricMessage (ToMetricMessage scenarioB) = scenarioB :=
  metric_roundtrip scenarioB (by decide) (by decide) (by decide)

/-- C3 counterexample: a field whose value is outside the five supported
kinds is not dropped from the outgoing message; the encoded metric still
contains a field entry for its key, with the zero discriminant and no
value, because the append in the encoding loop of ToMetricMessage is
outside the type switch. -/
theorem unsupported_field_not_dropped :
    (ToMetricMessage unsupportedFieldMetric).fields
      = [{ key := "k", ftype := .unset, value := .vnone }] := by
  rfl

/-- C3 amended: every field of the host metric, supported or not,
contributes one entry in order to the outgoing wire message; a
supported-kind field carries a discriminant the decoder recognizes, while
an unsupported field keeps the zero discriminant and the unset value. -/
theorem encode_field_discriminants (m : Metric) :
    (ToMetricMessage m).fields.map WireField.key = m.fields.map Prod.fst ∧
    (∀ kv ∈ m.fields, supportedKind kv.2 = true →
      (decodeFieldValue (encodeField kv.1 kv.2)).isSome = true) ∧
    (∀ kv ∈ m.fields, supportedKind kv.2 = false →
      encodeField kv.1 kv.2 = { key := kv.1, ftype := .unset, value := .vnone }) := by
  refine ⟨?_, ?_, ?_⟩
  · simp [ToMetricMessage, List.map_map, Function.comp, encodeField_key]
  · intro kv _ h
    rw [decodeFieldValue_encodeField kv.1 kv.2 h]
    rfl
  · intro kv _ h
    cases hv : kv.2 <;> simp_all [supportedKind, encodeField]

/-- C3 amended witness: on the mixed metric, the keys of both fields are
kept in order, the supported field decodes, and the unsupported field is
encoded with the zero discriminant. -/
theorem encode_field_discriminants_witness :
    (ToMetricMessage mixedMetric).fields.map WireField.key = ["a", "b"] ∧
    (decodeFieldValue (encodeField "a" (.i64 1))).isSome = true ∧
    encodeField "b" .unsupported = { key := "b", ftype := .unset, value := .vnone } :=
  ⟨((encode_field_discriminants mixedMetric).1).trans (by decide),
   (encode_field_discriminants mixedMetric).2.1 ("a", .i64 1) (by decide) (by decide),
   (encode_field_discriminants mixedMetric).2.2 ("b", .unsupported) (by decide) (by decide)⟩

/-- A first-space split has either one field or two. -/
theorem splitN2_shape (l : GoStr) :
    (∃ a, splitN2 l = [a]) ∨ ∃ a b, splitN2 l = [a, b] := by
  unfold splitN2
  cases breakAtSpace l with
  | none => exact .inl ⟨l, rfl⟩
  | some p =>
    cases p with
    | mk a b => exact .inr ⟨a, b, rfl⟩

/-- The definitional equation of the loop on a non-empty line list. -/
theorem readChecksumsLoop_cons (l : GoStr) (t : List GoStr)
    (acc : List (GoStr × GoStr)) :
    readChecksumsLoop (l :: t) acc =
      match splitN2 l with
      | [chk, fname] =>
        if fname = [] then .panicked
        else readChecksumsLoop t (mapInsert acc (fname.drop 1) chk)
      | _ => .err := rfl

/-- The loop step on a line with a non-empty second field. -/
theorem readChecksumsLoop_entry {l chk fname : GoStr} (t : List GoStr)
    (acc : List (GoStr × GoStr)) (hsp : splitN2 l = [chk, fname])
    (hne : fname ≠ []) :
    readChecksumsLoop (l :: t) acc
      = readChecksumsLoop t (mapInsert acc (fname.drop 1) chk) := by
  rw [readChecksumsLoop_cons, hsp]
  simp [hne]

/-- The loop step on a line with an empty second field: the runtime panic. -/
theorem readChecksumsLoop_panics {l chk : GoStr} (t : List GoStr)
    (acc : List (GoStr × GoStr)) (hsp : splitN2 l = [chk, []]) :
    readChecksumsLoop (l :: t) acc = .panicked := by
  rw [readChecksumsLoop_cons, hsp]
  simp

/-- The loop step on a line without a space: the parse error. -/
theorem readChecksumsLoop_bad {l a : GoStr} (t : List GoStr)
    (acc : List (GoStr × GoStr)) (hsp : splitN2 l = [a]) :
    readChecksumsLoop (l :: t) acc = .err := by
  rw [readChecksumsLoop_cons, hsp]

/-- The entry parse of a line with a non-empty second field. -/
theorem lineEntry_two {l chk fname : GoStr} (hsp : splitN2 l = [chk, fname])
    (hne : fname ≠ []) : lineEntry l = some (fname.drop 1, chk) := by
  unfold lineEntry
  rw [hsp]
  simp [hne]

/-- A line with an empty second field has no entry parse. -/
theorem lineEntry_empty {l chk : GoStr} (hsp : splitN2 l = [chk, []]) :
    lineEntry l = none := by
  unfold lineEntry
  rw [hsp]
  simp

/-- A line without a space has no entry parse. -/
theorem lineEntry_one {l a : GoStr} (hsp : splitN2 l = [a]) :
    lineEntry l = none := by
  unfold lineEntry
  rw [hsp]

/-- Only a line with an empty second field panics. -/
theorem linePanics_iff (l : GoStr) :
    linePanics l = true ↔ ∃ chk, splitN2 l = [chk, []] := by
  unfold linePanics
  rcases splitN2_shape l with ⟨a, hsp⟩ | ⟨a, b, hsp⟩
  · rw [hsp]
    simp [hsp]
  · rw [hsp]
    by_cases hb : b = [] <;> simp [hb, hsp]

/-- Only a line without exactly two split fields is a parse error. -/
theorem lineFieldsBad_iff (l : GoStr) :
    lineFieldsBad l = true ↔ ∃ a, splitN2 l = [a] := by
  unfold lineFieldsBad
  rcases splitN2_shape l with ⟨a, hsp⟩ | ⟨a, b, hsp⟩ <;> rw [hsp] <;> simp [hsp]

/-- The loop succeeds on lines that all parse, with one appended entry per
line, as long as the keys stay pairwise distinct. -/
theorem readChecksumsLoop_ok :
    ∀ (ls : List GoStr) (acc : List (GoStr × GoStr)),
    (∀ l ∈ ls, (lineEntry l).isSome = true) →
    (acc.map Prod.fst ++ (ls.filterMap lineEntry).map Prod.fst).Nodup →
    readChecksumsLoop ls acc = .ok (acc ++ ls.filterMap lineEntry) := by
  intro ls
  induction ls with
  | nil =>
    intro acc _ _
    simp [readChecksumsLoop]
  | cons l t ih =>
    intro acc hall hnd
    have hl : (lineEntry l).isSome = true := hall l (by simp)
    rcases splitN2_shape l with ⟨a, hsp⟩ | ⟨a, b, hsp⟩
    · rw [lineEntry_one hsp] at hl
      simp at hl
    · by_cases hb : b = []
      · rw [hb] at hsp
        rw [lineEntry_empty hsp] at hl
        simp at hl
      · have hent : lineEntry l = some (b.drop 1, a) := lineEntry_two hsp hb
        rw [readChecksumsLoop_entry t acc hsp hb]
        have hfm : (l :: t).filterMap lineEntry
            = (b.drop 1, a) :: t.filterMap lineEntry := by
          simp [List.filterMap_cons, hent]
        rw [hfm] at hnd
        have hfresh : b.drop 1 ∉ acc.map Prod.fst := by
          rcases List.nodup_append.mp hnd with ⟨_, _, hdis⟩
          intro hmem
          exact hdis hmem (by simp)
        rw [mapInsert_fresh _ _ _ hfresh]
        have hnd2 : ((acc ++ [(b.drop 1, a)]).map Prod.fst
            ++ (t.filterMap lineEntry).map Prod.fst).Nodup := by
          rw [List.map_append, List.append_assoc]
          simpa using hnd
        rw [ih (acc ++ [(b.drop 1, a)]) (fun x hx => hall x (by simp [hx])) hnd2]
        simp [hfm]

/-- On a panic-free file the loop errs exactly when some line lacks two
fields. -/
theorem readChecksumsLoop_err :
    ∀ (ls : List GoStr) (acc : List (GoStr × GoStr)),
    (∀ l ∈ ls, linePanics l = false) →
    (readChecksumsLoop ls acc = .err ↔ ∃ l ∈ ls, lineFieldsBad l = true) := by
  intro ls
  induction ls with
  | nil =>
    intro acc _
    simp [readChecksumsLoop]
  | cons l t ih =>
    intro acc hall
    have hp : linePanics l = false := hall l (by simp)
    rcases splitN2_shape l with ⟨a, hsp⟩ | ⟨a, b, hsp⟩
    · rw [readChecksumsLoop_bad t acc hsp]
      have hbad : lineFieldsBad l = true := (lineFieldsBad_iff l).mpr ⟨a, hsp⟩
      simp [hbad]
    · by_cases hb : b = []
      · rw [hb] at hsp
        have : linePanics l = true := (linePanics_iff l).mpr ⟨a, hsp⟩
        rw [this] at hp
        cases hp
      · rw [readChecksumsLoop_entry t acc hsp hb]
        rw [ih (mapInsert acc (b.drop 1) a) (fun x hx => hall x (by simp [hx]))]
        have hgood : lineFieldsBad l = false := by
          rcases hbad : lineFieldsBad l with _ | _
          · rfl
          · rcases (lineFieldsBad_iff l).mp hbad with ⟨c, hc⟩
            rw [hsp] at hc
            cases hc
        simp [hgood]

/-- All-some entry parses give one entry per line. -/
theorem filterMap_length_all_some {α β : Type} (f : α → Option β) :
    ∀ (l : List α), (∀ x ∈ l, (f x).isSome = true) →
    (l.filterMap f).length = l.length := by
  intro l
  induction l with
  | nil => intro _; rfl
  | cons x t ih =>
    intro hall
    have hx := hall x (by simp)
    rcases hfx : f x with _ | b
    · rw [hfx] at hx
      cases hx
    · simp [List.filterMap_cons, hfx, ih (fun y hy => hall y (by simp [hy]))]

/-- Appending one space to a space-free string splits exactly there. -/
theorem breakAtSpace_append_space :
    ∀ (c : GoStr), ' ' ∉ c → breakAtSpace (c ++ [' ']) = some (c, []) := by
  intro c
  induction c with
  | nil =>
    intro _
    rfl
  | cons d t ih =>
    intro h
    have hd : ¬d = ' ' := fun hc => h (by simp [hc])
    have ht : ' ' ∉ t := fun hc => h (by simp [hc])
    simp only [List.cons_append, breakAtSpace, if_neg hd, List.append_eq, ih ht]

/-- C4 counterexample: on the manifest line of the claim, with two spaces
before the star, the character stripped by fields[1][1:] is the second
space, not the star, so the resulting key is *myplugin and not myplugin. -/
theorem manifest_two_space_line_key :
    readChecksums (.contents [gs "abcdef0123...  *myplugin"])
        = .ok [(gs "*myplugin", gs "abcdef0123...")] ∧
    readChecksums (.contents [gs "abcdef0123...  *myplugin"])
        ≠ .ok [(gs "myplugin", gs "abcdef0123...")] := by
  constructor
  · decide
  · decide

/-- C4 amended: with a single separator space before the binary-mode star,
parsing strips the star and discovery of a directory containing the
executable myplugin yields the registration { myplugin } for inputs with
the checksum keyed under myplugin. -/
theorem manifest_single_space_discovery :
    Discover scenarioAFS = .ok
      { register := [(gs "inputs", [gs "myplugin"]), (gs "outputs", []),
                     (gs "processors", []), (gs "aggregators", [])],
        checksums := [(gs "inputs", [(gs "myplugin", gs "abcdef0123...")])] } := by
  decide

/-- C5 counterexample: readChecksums has no comment handling.  A one-field
line starting with the comment character is a fatal parse error, and a
comment line with a space produces a mapping entry, so neither the
"error exactly for non-comment lines" nor the "one entry per non-comment
line" part of the claim holds. -/
theorem manifest_comment_lines_not_exempt :
    readChecksums (.contents [gs "#x"]) = .err ∧
    readChecksums (.contents [gs "# hello"]) = .ok [(gs "ello", gs "#")] := by
  constructor
  · decide
  · decide

/-- C5 amended: an absent manifest yields the empty mapping and no error;
an unreadable one is an error; a file whose every line parses (two
single-space-split fields with a non-empty second field) and whose
stripped keys are pairwise distinct yields exactly one entry per line
(comment lines included); and on a panic-free file the reader errs exactly
when some line does not split into two fields. -/
theorem readChecksums_contract :
    readChecksums .absent = .ok [] ∧
    readChecksums .unreadable = .err ∧
    (∀ ls : List GoStr, (∀ l ∈ ls, (lineEntry l).isSome = true) →
      ((ls.filterMap lineEntry).map Prod.fst).Nodup →
      readChecksums (.contents ls) = .ok (ls.filterMap lineEntry) ∧
      (ls.filterMap lineEntry).length = ls.length) ∧
    (∀ ls : List GoStr, (∀ l ∈ ls, linePanics l = false) →
      (readChecksums (.contents ls) = .err ↔ ∃ l ∈ ls, lineFieldsBad l = true)) := by
  refine ⟨rfl, rfl, ?_, ?_⟩
  · intro ls hall hnd
    constructor
    · have h := readChecksumsLoop_ok ls [] hall (by simpa using hnd)
      simpa [readChecksums] using h
    · exact filterMap_length_all_some lineEntry ls hall
  · intro ls hall
    exact readChecksumsLoop_err ls [] hall

/-- C5 witness: a one-line parsable file yields its single entry, and a
file with a space-free line errs. -/
theorem readChecksums_contract_witness :
    readChecksums (.contents [gs "abc *file"]) = .ok [(gs "file", gs "abc")] ∧
    (readChecksums (.contents [gs "nospace"]) = .err
      ↔ ∃ l ∈ [gs "nospace"], lineFieldsBad l = true) := by
  constructor
  · exact ((readChecksums_contract.2.2.1 [gs "abc *file"] (by decide) (by decide)).1).trans
      (by decide)
  · exact readChecksums_contract.2.2.2 [gs "nospace"] (by decide)

/-- C9: a manifest line that is a space-free checksum followed by one
trailing space splits into the checksum and the empty string, and
fields[1][1:] then slices the empty string out of range: readChecksums
panics instead of returning a mapping or an error. -/
theorem readChecksums_trailing_space_panics (chk : GoStr) (h : ' ' ∉ chk) :
    readChecksums (.contents [chk ++ [' ']]) = .panicked := by
  have hsp : splitN2 (chk ++ [' ']) = [chk, []] := by
    simp [splitN2, breakAtSpace_append_space chk h]
  exact readChecksumsLoop_panics [] [] hsp

/-- C9 witness: the concrete line "abcdef0123 " makes readChecksums panic. -/
theorem readChecksums_trailing_space_panics_witness :
    readChecksums (.contents [gs "abcdef0123" ++ [' ']]) = .panicked :=
  readChecksums_trailing_space_panics (gs "abcdef0123") (by decide)

/-- C6: Discover does not surface a failure of the directory walk.  The
walk callback ignores its error argument and always returns nil, so
filepath.Walk swallows the failure (here: a sub-directory of inputs whose
contents cannot be read), Discover returns success with partial results,
and the error check after filepath.Walk in Discover is unreachable.  The
claim and the spec say the walk failure is fatal, and the dead error
branch in Discover shows that intent, so this is a code bug rather than a
spec amendment.  (When instead lstat fails on an entry, the callback calls
info.Mode() on a nil FileInfo and the host panics, which is not a fatal
error return either.) -/
theorem discover_swallows_walk_failure :
    Discover unreadableSubdirFS = .ok
      { register := [(gs "inputs", []), (gs "outputs", []),
                     (gs "processors", []), (gs "aggregators", [])],
        checksums := [(gs "inputs", [])] } := by
  decide

/-- C2: for a non-empty well-formed checksum, SetupReceiver configures
secure verification with the decoded digest and SHA-256, and the launch
with an executable whose hash differs from that digest fails with a
checksum mismatch, with no RPC call made and no subprocess left running.
The go-plugin bring-up is modelled from the spec (see `clientStart`); the
construction of the SecureConfig is from setup.go. -/
theorem checksum_mismatch_fails_launch (hash : List Nat → List Nat)
    (exe : List Nat) (checksum : GoStr) (raw : List Nat) (cfg : ClientConfig)
    (onward : LaunchState)
    (hne : checksum ≠ [])
    (hhex : hexDecode checksum = some raw)
    (hsetup : SetupReceiver checksum = .ok cfg)
    (hmism : hash exe ≠ raw) :
    cfg.secureConfig = some { checksum := raw, hashIsSha256 := true } ∧
    clientStart hash exe cfg onward =
      { outcome := some .checksumMismatch, rpcCallsMade := 0,
        subprocessRunning := false } := by
  simp only [SetupReceiver, if_neg hne, hhex] at hsetup
  injection hsetup with h
  subst h
  refine ⟨rfl, ?_⟩
  simp [clientStart, hmism]

/-- C2 witness: the two-character checksum ab decodes to the byte 171 and
an executable hashing to the empty digest fails the launch. -/
theorem checksum_mismatch_fails_launch_witness :
    ({ secureConfig := some { checksum := [171], hashIsSha256 := true },
       startTimeoutSeconds := 1 } : ClientConfig).secureConfig
      = some { checksum := [171], hashIsSha256 := true } ∧
    clientStart (fun _ => []) []
        { secureConfig := some { checksum := [171], hashIsSha256 := true },
          startTimeoutSeconds := 1 }
        { outcome := none, rpcCallsMade := 0, subprocessRunning := true } =
      { outcome := some .checksumMismatch, rpcCallsMade := 0,
        subprocessRunning := false } :=
  checksum_mismatch_fails_launch (fun _ => []) [] (gs "ab") [171]
    { secureConfig := some { checksum := [171], hashIsSha256 := true },
      startTimeoutSeconds := 1 }
    { outcome := none, rpcCallsMade := 0, subprocessRunning := true }
    (by decide) (by decide) (by rfl) (by decide)

/-- C7: Wrapper.Init first issues the remote Configure with the stored raw
configuration; any error from it, domain or transport, is surfaced
(wrapped with the configuration failed prefix) and the remote Init is
never issued; when Configure succeeds the result of Init is exactly that
of the remote Init call.  The Bool component of `wrapperInit` records
whether the remote Init call was made. -/
theorem wrapper_init_sequencing (p : RemotePlugin) (config : String) :
    (∀ e, clientConfigure (p.configure config) = some e →
      wrapperInit p config = (some ("configuration failed: " ++ e), false)) ∧
    (clientConfigure (p.configure config) = none →
      wrapperInit p config = (clientInit p.init, true)) := by
  constructor
  · intro e he
    simp [wrapperInit, he]
  · intro h
    simp [wrapperInit, h]

/-- C7 witness: a failing Configure short-circuits Init; a succeeding
Configure hands through the remote Init result. -/
theorem wrapper_init_sequencing_witness :
    wrapperInit configureFailPlugin "cfg"
      = (some ("configuration failed: " ++ "bad"), false) ∧
    wrapperInit configureOkPlugin "cfg"
      = (clientInit configureOkPlugin.init, true) :=
  ⟨(wrapper_init_sequencing configureFailPlugin "cfg").1 "bad" rfl,
   (wrapper_init_sequencing configureOkPlugin "cfg").2 rfl⟩

/-- C8: on a domain error from the remote Gather the Wrapper returns that
error and adds nothing to the accumulator; on success it adds every
decoded metric to the accumulator in order and returns no error. -/
theorem wrapper_gather_forwarding (p : RemotePlugin) (sink : List Metric) :
    (∀ resp, p.gather = .reply resp → resp.error.isError = true →
      wrapperGather p sink = (sink, some resp.error.message)) ∧
    (∀ resp, p.gather = .reply resp → resp.error.isError = false →
      wrapperGather p sink = (sink ++ FromMetricsMessage resp.metrics, none)) := by
  constructor
  · intro resp hr he
    simp [wrapperGather, clientGather, hr, FromErrorMessage, he]
  · intro resp hr he
    simp [wrapperGather, clientGather, hr, FromErrorMessage, he]

/-- C8 witness: a domain error leaves the accumulator empty and surfaces
the message; a successful response forwards its decoded metric. -/
theorem wrapper_gather_forwarding_witness :
    wrapperGather gatherErrPlugin [] = ([], some "boom") ∧
    wrapperGather gatherOkPlugin []
      = ([] ++ FromMetricsMessage [ToMetricMessage scenarioB], none) :=
  ⟨(wrapper_gather_forwarding gatherErrPlugin []).1
      { error := { isError := true, message := "boom" }, metrics := [] } rfl rfl,
   (wrapper_gather_forwarding gatherOkPlugin []).2
      { error := { isError := false, message := "" },
        metrics := [ToMetricMessage scenarioB] } rfl rfl⟩

/-- C10: a transport-level gRPC failure makes the host-side stub panic in
Description and SampleConfig, while the same failure in Configure, Init
and Gather is returned to the caller as a wrapped error value. -/
theorem transport_failure_panics_description (e : String) :
    clientDescription (.failure e) = .panicked ("gRPC call failed: " ++ e) ∧
    clientSampleConfig (.failure e) = .panicked ("gRPC call failed: " ++ e) ∧
    clientConfigure (.failure e) = some ("gRPC call failed: " ++ e) ∧
    clientInit (.failure e) = some ("gRPC call failed: " ++ e) ∧
    clientGather (.failure e) = .error ("gRPC call failed: " ++ e) :=
  ⟨rfl, rfl, rfl, rfl, rfl⟩

end Telegraf
